import Mathlib

/-
  Verification development for the millerbit team-portfolio backend.

  The definitions below are a shallow embedding of the project lifecycle
  controller (src/controllers/projectController.ts), the JSON-field parsing
  helper (src/utils/parseJsonField.ts), and the relational schema
  (init.sql): database tables become lists of rows, SQL statements become
  pure state transformations, and the nodemailer-based notification sender
  becomes an explicit list of dispatched emails together with a boolean
  oracle saying whether the SMTP dispatch succeeds.  Foreign-key and
  unique-pair constraints from the schema are modelled where the
  controller's behaviour depends on them (participant inserts can violate
  the users foreign key; ON CONFLICT DO NOTHING becomes insert-if-absent;
  ON DELETE CASCADE becomes filtering of the dependent tables).
-/

namespace MillerBit

/-- JavaScript truthiness for an optional string value: `undefined`/absent and
the empty string are falsy, every other string is truthy. -/
def truthy : Option String → Bool
  | some s => s != ""
  | none => false

/-- Model of JavaScript `String.prototype.startsWith`, used by the controller
as `file.mimetype.startsWith('image/')` etc. -/
def startsWithStr (s p : String) : Bool := p.toList.isPrefixOf s.toList

/-- ASCII lowercasing of a string, as a character list. -/
def lowerChars (s : String) : List Char := s.toList.map Char.toLower

/-- Model of the SQL predicate `value ILIKE '%' || pat || '%'` used by the
portfolio listing's skill filter: case-insensitive substring match. -/
def ilikeMatch (value pat : String) : Bool :=
  let v := lowerChars value
  let p := lowerChars pat
  (List.range (v.length + 1)).any (fun i => p.isPrefixOf (v.drop i))

/-- A row of the `users` table (init.sql); `email` is NOT NULL there. -/
structure UserRow where
  user_id : String
  email : String
  first_name : String
  last_name : String
deriving DecidableEq, Repr

/-- A row of the `projects` table (init.sql). `status` defaults to
`"pending"` in the schema and the creation INSERT never mentions it. -/
structure ProjectRow where
  project_id : String
  project_name : String
  description : Option String
  project_picture_url : Option String
  status : String
  created_by_user_id : String
deriving DecidableEq, Repr

/-- A row of the `skills` table (init.sql). -/
structure SkillRow where
  skill_id : String
  skill_name : String
deriving DecidableEq, Repr

/-- A row of the `project_media` table (init.sql); the generated
`media_id` and `created_at` columns are not consulted by any handler. -/
structure MediaRow where
  project_id : String
  media_type : String
  url : String
  description : Option String
deriving DecidableEq, Repr

/-- The relational store: one list per table, plus a counter feeding the
uuid generator (`uuid_generate_v4` / the `uuid` npm package).  The two link
tables are lists of (project_id, X_id) pairs, matching their composite
primary keys. -/
structure DB where
  nextId : Nat
  users : List UserRow
  projects : List ProjectRow
  skills : List SkillRow
  project_participants : List (String × String)
  project_skills : List (String × String)
  project_media : List MediaRow
deriving DecidableEq, Repr

/-- Deterministic stand-in for uuid generation: the n-th generated id. -/
def uuid (n : Nat) : String := "uuid-" ++ Nat.repr n

/-- An HTTP response as the handlers produce it: status code plus the
`message` field of the JSON body. -/
structure Resp where
  code : Nat
  message : String
deriving DecidableEq, Repr

/-- One email handed to the notification sender (utils/email.ts
`sendEmail(to, subject, text, html)`); the recipient field is named
`toAddr` because `to` is reserved in Lean. -/
structure Email where
  toAddr : String
  subject : String
  text : String
  html : String
deriving DecidableEq, Repr

/-- A raw request-body field as `parseJsonField` observes it: absent (or any
other JavaScript-falsy / non-string value), a string that `JSON.parse`
rejects, or a string that parses to the typed value `v`. -/
inductive RawField (T : Type) where
  | absent
  | invalidStr
  | parsed (v : T)
deriving DecidableEq

/-- Model of utils/parseJsonField.ts: a parsable string yields its value, an
unparsable string yields the 400-response message `Invalid <field> data`,
and an absent field yields the supplied default. -/
def parseJsonField {T : Type} (field : RawField T) (fieldName : String)
    (defaultValue : T) : Except String T :=
  match field with
  | .parsed v => .ok v
  | .invalidStr => .error ("Invalid " ++ fieldName ++ " data")
  | .absent => .ok defaultValue

/-- An ad-hoc media descriptor from the creation request body; the handler
inserts it only when both `media_type` and `url` are truthy. -/
structure MediaDescriptor where
  media_type : Option String
  url : Option String
  description : Option String
deriving DecidableEq, Repr

/-- The creation request as `createProject` sees it: body fields, the
authenticated user id, and the optional uploaded picture's stored filename.
`status` is carried to model a caller attempting to inject a status value;
the handler never reads it. -/
structure CreateReq where
  project_name : Option String
  description : Option String
  status : Option String
  userId : Option String
  filename : Option String
  participants : RawField (List String)
  skills : RawField (List String)
  media : RawField (List MediaDescriptor)
deriving DecidableEq

/-- Whether a user with the given id exists (the `users` foreign key). -/
def userExists (db : DB) (uid : String) : Bool :=
  db.users.any (fun u => u.user_id == uid)

/-- Model of `INSERT ... ON CONFLICT (pair) DO NOTHING` on a two-column
link table. -/
def insertIgnore (links : List (String × String)) (pr : String × String) :
    List (String × String) :=
  if pr ∈ links then links else links ++ [pr]

/-- The participant loop of `createProject`: one
`INSERT INTO project_participants ... ON CONFLICT DO NOTHING` per listed
participant.  A participant id that references no user violates the
foreign key: the statement throws, later statements never run, and (there
being no surrounding transaction) the rows already written stay, which the
error value records. -/
def insertParticipants (pid : String) : DB → List String → Except DB DB
  | db, [] => .ok db
  | db, uid :: rest =>
    if userExists db uid then
      insertParticipants pid
        { db with project_participants := insertIgnore db.project_participants (pid, uid) }
        rest
    else
      .error db

/-- One iteration of the skills loop: `SELECT skill_id FROM skills WHERE
skill_name = $1`, lazily `INSERT INTO skills ... RETURNING skill_id` when
absent, then insert-or-ignore the project-skill link. -/
def insertSkill (db : DB) (pid skillName : String) : DB :=
  match (db.skills.filter (fun s => s.skill_name == skillName)).head? with
  | some s => { db with project_skills := insertIgnore db.project_skills (pid, s.skill_id) }
  | none =>
    let sid := uuid db.nextId
    { db with
        nextId := db.nextId + 1,
        skills := db.skills ++ [⟨sid, skillName⟩],
        project_skills := insertIgnore db.project_skills (pid, sid) }

/-- The skills loop of `createProject`. -/
def insertSkills (pid : String) : DB → List String → DB
  | db, [] => db
  | db, n :: rest => insertSkills pid (insertSkill db pid n) rest

/-- The ad-hoc media loop of `createProject`: descriptors with both a truthy
type and a truthy url are inserted, the rest are silently skipped. -/
def insertMediaItems (pid : String) : DB → List MediaDescriptor → DB
  | db, [] => db
  | db, m :: rest =>
    let db' :=
      if truthy m.media_type && truthy m.url then
        { db with project_media :=
            db.project_media ++ [⟨pid, m.media_type.getD "", m.url.getD "", m.description⟩] }
      else db
    insertMediaItems pid db' rest

/-- Result of the creation handler: the store afterwards and the response. -/
structure CreateResult where
  db : DB
  resp : Resp
deriving DecidableEq

/-- Model of `createProject` (projectController.ts lines 63-134): validate
name and creator, parse the three JSON fields, insert the project row
(status left to the schema default `"pending"`), loop-insert participants,
unconditionally insert-or-ignore the creator's participant link, loop the
skills and media inserts, and answer 201.  The statements are issued
independently with no BEGIN/COMMIT, so a mid-sequence failure keeps every
row already written and answers 500 via `handleControllerError`. -/
def createProject (db : DB) (req : CreateReq) : CreateResult :=
  if !(truthy req.project_name && truthy req.userId) then
    ⟨db, ⟨400, "Project name and creator ID are required"⟩⟩
  else
    let created_by := req.userId.getD ""
    let picture_url := req.filename.map (fun f => "/uploads/project_media/" ++ f)
    match parseJsonField req.participants "participants" [] with
    | .error m => ⟨db, ⟨400, m⟩⟩
    | .ok participants =>
      match parseJsonField req.skills "skills" [] with
      | .error m => ⟨db, ⟨400, m⟩⟩
      | .ok skills =>
        match parseJsonField req.media "media" [] with
        | .error m => ⟨db, ⟨400, m⟩⟩
        | .ok mediaItems =>
          if !(userExists db created_by) then
            ⟨db, ⟨500, "Error creating project"⟩⟩
          else
            let pid := uuid db.nextId
            let db1 : DB := { db with
              nextId := db.nextId + 1,
              projects := db.projects ++
                [⟨pid, req.project_name.getD "", req.description, picture_url,
                  "pending", created_by⟩] }
            match insertParticipants pid db1 participants with
            | .error dbp => ⟨dbp, ⟨500, "Error creating project"⟩⟩
            | .ok db2 =>
              let db3 : DB := { db2 with
                project_participants := insertIgnore db2.project_participants (pid, created_by) }
              let db4 := insertSkills pid db3 skills
              let db5 := insertMediaItems pid db4 mediaItems
              ⟨db5, ⟨201, "Project created successfully"⟩⟩

/-- The `UPDATE projects SET status = $1 ... WHERE project_id = $2` part of
the moderation handlers. -/
def setStatus (db : DB) (id st : String) : DB :=
  { db with projects :=
      db.projects.map (fun p => if p.project_id == id then { p with status := st } else p) }

/-- First projects row matching an id (`RETURNING` / `rows[0]`). -/
def findProject (db : DB) (id : String) : Option ProjectRow :=
  (db.projects.filter (fun p => p.project_id == id)).head?

/-- First users row matching an id (`rows[0]` of the email lookup). -/
def findUser (db : DB) (uid : String) : Option UserRow :=
  (db.users.filter (fun u => u.user_id == uid)).head?

/-- Result of a moderation handler: store, response, emails delivered. -/
structure ModResult where
  db : DB
  resp : Resp
  sent : List Email
deriving DecidableEq

/-- Model of `approveProject` (projectController.ts lines 203-235): run the
status UPDATE, answer 404 when it matched no row, otherwise look up the
creator's email and, when present, await `sendEmail`.  `emailOk` is the
SMTP oracle: when dispatch throws, the catch block answers 500, but the
UPDATE was already auto-committed, so the new status stays. -/
def approveProject (db : DB) (id : String) (emailOk : Bool) : ModResult :=
  let db' := setStatus db id "approved"
  match findProject db id with
  | none => ⟨db', ⟨404, "Project not found"⟩, []⟩
  | some row =>
    match findUser db row.created_by_user_id with
    | some u =>
      let subject := "Project Approved: " ++ row.project_name
      let text := "Your project \"" ++ row.project_name ++
        "\" has been approved by a Team Leader."
      let html := "<p>Your project \"<strong>" ++ row.project_name ++
        "</strong>\" has been approved by a Team Leader.</p>"
      if emailOk then
        ⟨db', ⟨200, "Project " ++ id ++ " approved successfully."⟩,
          [⟨u.email, subject, text, html⟩]⟩
      else
        ⟨db', ⟨500, "Error approving project"⟩, []⟩
    | none => ⟨db', ⟨200, "Project " ++ id ++ " approved successfully."⟩, []⟩

/-- Model of `rejectProject` (projectController.ts lines 242-280): as for
approval, with status `"rejected"` and the optional reason appended
verbatim to both bodies when truthy. -/
def rejectProject (db : DB) (id : String) (reason : Option String)
    (emailOk : Bool) : ModResult :=
  let db' := setStatus db id "rejected"
  match findProject db id with
  | none => ⟨db', ⟨404, "Project not found"⟩, []⟩
  | some row =>
    match findUser db row.created_by_user_id with
    | some u =>
      let subject := "Project Rejected: " ++ row.project_name
      let base := "Your project \"" ++ row.project_name ++
        "\" has been rejected by a Team Leader."
      let baseHtml := "<p>Your project \"<strong>" ++ row.project_name ++
        "</strong>\" has been rejected by a Team Leader.</p>"
      let text := if truthy reason then base ++ "\nReason: " ++ reason.getD "" else base
      let html :=
        if truthy reason then baseHtml ++ "<p>Reason: " ++ reason.getD "" ++ "</p>"
        else baseHtml
      if emailOk then
        ⟨db', ⟨200, "Project " ++ id ++ " rejected successfully."⟩,
          [⟨u.email, subject, text, html⟩]⟩
      else
        ⟨db', ⟨500, "Error rejecting project"⟩, []⟩
    | none => ⟨db', ⟨200, "Project " ++ id ++ " rejected successfully."⟩, []⟩

/-- Model of `deleteProject` (projectController.ts lines 456-482): BEGIN,
`DELETE FROM projects WHERE project_id = $1`, ROLLBACK + 404 when no row
matched, COMMIT otherwise.  `dbOk = false` is an exogenous store failure of
the DELETE: the catch block rolls the transaction back (store unchanged)
and answers 500.  On commit the schema's ON DELETE CASCADE constraints
remove the dependent participant, skill-link and media rows. -/
def deleteProject (db : DB) (id : String) (dbOk : Bool) : DB × Resp :=
  if !dbOk then
    (db, ⟨500, "Error deleting project"⟩)
  else if (db.projects.filter (fun p => p.project_id == id)).length == 0 then
    (db, ⟨404, "Project not found"⟩)
  else
    ({ db with
        projects := db.projects.filter (fun p => p.project_id != id),
        project_participants := db.project_participants.filter (fun pr => pr.1 != id),
        project_skills := db.project_skills.filter (fun pr => pr.1 != id),
        project_media := db.project_media.filter (fun m => m.project_id != id) },
     ⟨200, "Project " ++ id ++ " and its related data deleted successfully."⟩)

/-- The portfolio listing's query-string filters. -/
structure PortfolioQuery where
  memberId : Option String
  skillName : Option String
deriving DecidableEq, Repr

/-- Skill names linked to a project via `project_skills` JOIN `skills`. -/
def projectSkillNames (db : DB) (pid : String) : List String :=
  (db.project_skills.filter (fun pr => pr.1 == pid)).filterMap
    (fun pr => ((db.skills.filter (fun s => s.skill_id == pr.2)).head?).map
      (fun s => s.skill_name))

/-- The WHERE clause of `getPortfolioProjects` (projectController.ts lines
141-196) for one project: `p.status = 'approved'`, optionally
`pp.user_id = $memberId` over the participants join, optionally
`s.skill_name ILIKE '%skillName%'` over the skills join.  The optional
filters are appended only when the query parameter is truthy. -/
def portfolioMatch (db : DB) (q : PortfolioQuery) (p : ProjectRow) : Bool :=
  p.status == "approved"
  && (if truthy q.memberId then
        db.project_participants.contains (p.project_id, q.memberId.getD "")
      else true)
  && (if truthy q.skillName then
        (projectSkillNames db p.project_id).any (fun n => ilikeMatch n (q.skillName.getD ""))
      else true)

/-- Model of `getPortfolioProjects`: the projects satisfying the WHERE
clause (aggregation columns and ordering omitted — the claims under check
concern which projects are visible). -/
def getPortfolioProjects (db : DB) (q : PortfolioQuery) : List ProjectRow :=
  db.projects.filter (portfolioMatch db q)

/-- Model of the single-project query of `getPublicProjectDetails`
(projectController.ts lines 370-421): `WHERE p.project_id = $1 AND
p.status = 'approved'`, first row. -/
def getPublicProjectDetails (db : DB) (id : String) : Option ProjectRow :=
  (db.projects.filter (fun p => p.project_id == id && p.status == "approved")).head?

/-- The response of `getPublicProjectDetails`: 404 when the query returned
no row, 200 with the projection otherwise. -/
def getPublicProjectDetailsResp (db : DB) (id : String) : Resp :=
  match getPublicProjectDetails db id with
  | none => ⟨404, "Project not found or not approved"⟩
  | some _ => ⟨200, "ok"⟩

/-- An uploaded file as multer hands it to the handler. -/
structure UploadedFile where
  filename : String
  mimetype : String
deriving DecidableEq, Repr

/-- Model of `projectMediaFileFilter` (projectController.ts lines 48-54):
the upload middleware accepts only image/* and video/* content types. -/
def projectMediaFileFilter (f : UploadedFile) : Bool :=
  startsWithStr f.mimetype "image/" || startsWithStr f.mimetype "video/"

/-- The media-type derivation of `uploadProjectMedia` (line 437):
`image/*` yields `"image"`, anything else reaching the handler `"video"`. -/
def uploadMediaType (f : UploadedFile) : String :=
  if startsWithStr f.mimetype "image/" then "image" else "video"

/-- Model of `uploadProjectMedia` (projectController.ts lines 428-449):
400 without a file, otherwise insert one media row whose type is derived
from the declared content type. -/
def uploadProjectMedia (db : DB) (id : String) (file : Option UploadedFile)
    (description : Option String) : DB × Resp :=
  match file with
  | none => (db, ⟨400, "No file uploaded"⟩)
  | some f =>
    let mediaUrl := "/uploads/project_media/" ++ f.filename
    let mediaType := uploadMediaType f
    ({ db with project_media := db.project_media ++ [⟨id, mediaType, mediaUrl, description⟩] },
     ⟨200, "Project media uploaded successfully"⟩)

/-- Underlying store of either outcome of a fallible statement sequence:
with no surrounding transaction, the rows written before a failure stay
committed, so both the ok and the error value carry a store. -/
def unE : Except DB DB → DB
  | .ok d => d
  | .error d => d

/-- Store fixture for the atomicity check on creation: one registered user
and otherwise empty tables. -/
def dbC1 : DB :=
  { nextId := 0,
    users := [⟨"u1", "u1@example.com", "Alice", "Miller"⟩],
    projects := [], skills := [], project_participants := [], project_skills := [],
    project_media := [] }

/-- Creation request whose participants list names a user that does not
exist, so the participant INSERT violates the users foreign key after the
project INSERT has already succeeded. -/
def reqC1 : CreateReq :=
  { project_name := some "Alpha", description := none, status := none,
    userId := some "u1", filename := none,
    participants := .parsed ["ghost"], skills := .absent, media := .absent }

/-- Store fixture for the notification-failure check: one pending project
whose creator has a registered email address. -/
def dbC2 : DB :=
  { nextId := 0,
    users := [⟨"u1", "u1@example.com", "Alice", "Miller"⟩],
    projects := [⟨"p1", "Alpha", none, none, "pending", "u1"⟩],
    skills := [], project_participants := [("p1", "u1")], project_skills := [],
    project_media := [] }

/-- Store fixture for the pending-status witness. -/
def dbC3 : DB := ⟨0, [⟨"u1", "u1@example.com", "Alice", "Miller"⟩], [], [], [], [], []⟩

/-- Valid creation request that also tries to inject status "approved". -/
def reqC3 : CreateReq :=
  { project_name := some "Alpha", description := none, status := some "approved",
    userId := some "u1", filename := none,
    participants := .absent, skills := .absent, media := .absent }

/-- The project row reqC3 creates in dbC3. -/
def rowC3 : ProjectRow := ⟨"uuid-0", "Alpha", none, none, "pending", "u1"⟩

/-- Store fixture for the public-read witness: one approved project tagged
"React Native" and one pending project. -/
def dbC4 : DB :=
  { nextId := 0,
    users := [⟨"u1", "u1@example.com", "Alice", "Miller"⟩],
    projects := [⟨"p1", "Alpha", none, none, "approved", "u1"⟩,
                 ⟨"p2", "Beta", none, none, "pending", "u1"⟩],
    skills := [⟨"s1", "React Native"⟩],
    project_participants := [("p1", "u1"), ("p2", "u1")],
    project_skills := [("p1", "s1")],
    project_media := [] }

/-- The approved project row of dbC4. -/
def rowC4 : ProjectRow := ⟨"p1", "Alpha", none, none, "approved", "u1"⟩

/-- Store fixture for the moderation not-found witness. -/
def dbC5 : DB :=
  ⟨0, [⟨"u1", "u1@example.com", "Alice", "Miller"⟩],
   [⟨"p1", "Alpha", none, none, "pending", "u1"⟩], [], [], [], []⟩

/-- Store fixture for the notification-content witness. -/
def dbC6 : DB :=
  { nextId := 0,
    users := [⟨"u1", "creator@example.com", "Alice", "Miller"⟩],
    projects := [⟨"p1", "Alpha", none, none, "pending", "u1"⟩],
    skills := [], project_participants := [], project_skills := [], project_media := [] }

/-- The pending project row of dbC6. -/
def rowC6 : ProjectRow := ⟨"p1", "Alpha", none, none, "pending", "u1"⟩

/-- The creator row of dbC6. -/
def userC6 : UserRow := ⟨"u1", "creator@example.com", "Alice", "Miller"⟩

/-- Store fixture for the deletion witness: one project with a participant
link, a skill link and a media row. -/
def dbC7 : DB :=
  { nextId := 0,
    users := [⟨"u1", "u1@example.com", "Alice", "Miller"⟩],
    projects := [⟨"p1", "Alpha", none, none, "approved", "u1"⟩],
    skills := [⟨"s1", "Go"⟩],
    project_participants := [("p1", "u1")],
    project_skills := [("p1", "s1")],
    project_media := [⟨"p1", "image", "/uploads/x.png", none⟩] }

/-- Store fixture for the creator-link witness: two registered users. -/
def dbC8 : DB :=
  { nextId := 0,
    users := [⟨"u1", "u1@example.com", "Alice", "Miller"⟩,
              ⟨"u2", "u2@example.com", "Bob", "Lee"⟩],
    projects := [], skills := [], project_participants := [], project_skills := [],
    project_media := [] }

/-- Creation request whose participants list redundantly names the creator. -/
def reqC8 : CreateReq :=
  { project_name := some "Alpha", description := none, status := none,
    userId := some "u1", filename := none,
    participants := .parsed ["u1", "u2"], skills := .absent, media := .absent }

/-- Store fixture for the media-upload witness. -/
def dbC9 : DB :=
  ⟨0, [⟨"u1", "u1@example.com", "Alice", "Miller"⟩],
   [⟨"p1", "Alpha", none, none, "approved", "u1"⟩], [], [], [], []⟩

/-- An uploaded video file. -/
def fC9 : UploadedFile := ⟨"clip.mp4", "video/mp4"⟩

/-- Store fixture for the JSON-validation witness. -/
def dbC10 : DB := ⟨0, [⟨"u1", "u1@example.com", "Alice", "Miller"⟩], [], [], [], [], []⟩

/-- Creation request whose participants field is an unparsable string. -/
def reqC10 : CreateReq :=
  { project_name := some "Alpha", description := none, status := none,
    userId := some "u1", filename := none,
    participants := .invalidStr, skills := .absent, media := .absent }

/-- The same request with the participants field absent instead. -/
def reqC10b : CreateReq := { reqC10 with participants := .absent }

/-
  Helper lemmas about the creation pipeline's statement loops.
-/

/-- The participant loop only writes the project_participants table. -/
theorem insertParticipants_fields (pid : String) :
    ∀ (l : List String) (db : DB),
      (unE (insertParticipants pid db l)).projects = db.projects ∧
      (unE (insertParticipants pid db l)).nextId = db.nextId ∧
      (unE (insertParticipants pid db l)).skills = db.skills ∧
      (unE (insertParticipants pid db l)).project_media = db.project_media := by
  intro l
  induction l with
  | nil => intro db; simp [insertParticipants, unE]
  | cons uid rest ih =>
    intro db
    simp only [insertParticipants]
    split
    · simpa using ih _
    · simp [unE]

/-- One skill iteration leaves projects, participants and media alone. -/
theorem insertSkill_fields (db : DB) (pid n : String) :
    (insertSkill db pid n).projects = db.projects ∧
    (insertSkill db pid n).project_participants = db.project_participants ∧
    (insertSkill db pid n).project_media = db.project_media := by
  unfold insertSkill
  split <;> simp

/-- The skills loop leaves projects, participants and media alone. -/
theorem insertSkills_fields (pid : String) :
    ∀ (l : List String) (db : DB),
      (insertSkills pid db l).projects = db.projects ∧
      (insertSkills pid db l).project_participants = db.project_participants ∧
      (insertSkills pid db l).project_media = db.project_media := by
  intro l
  induction l with
  | nil => intro db; simp [insertSkills]
  | cons n rest ih =>
    intro db
    simp only [insertSkills]
    have h1 := ih (insertSkill db pid n)
    have h2 := insertSkill_fields db pid n
    exact ⟨h1.1.trans h2.1, h1.2.1.trans h2.2.1, h1.2.2.trans h2.2.2⟩

/-- The ad-hoc media loop leaves projects and participants alone. -/
theorem insertMediaItems_fields (pid : String) :
    ∀ (l : List MediaDescriptor) (db : DB),
      (insertMediaItems pid db l).projects = db.projects ∧
      (insertMediaItems pid db l).project_participants = db.project_participants := by
  intro l
  induction l with
  | nil => intro db; simp [insertMediaItems]
  | cons m rest ih =>
    intro db
    simp only [insertMediaItems]
    split <;> simpa using ih _

/-- Field preservation of the participant loop, error outcome. -/
theorem insertParticipants_error_fields (pid : String) (l : List String) (db dbp : DB)
    (h : insertParticipants pid db l = .error dbp) :
    dbp.projects = db.projects ∧ dbp.nextId = db.nextId ∧ dbp.skills = db.skills ∧
    dbp.project_media = db.project_media := by
  have h1 := insertParticipants_fields pid l db
  rw [h] at h1
  simpa [unE] using h1

/-- Field preservation of the participant loop, ok outcome. -/
theorem insertParticipants_ok_fields (pid : String) (l : List String) (db db2 : DB)
    (h : insertParticipants pid db l = .ok db2) :
    db2.projects = db.projects ∧ db2.nextId = db.nextId ∧ db2.skills = db.skills ∧
    db2.project_media = db.project_media := by
  have h1 := insertParticipants_fields pid l db
  rw [h] at h1
  simpa [unE] using h1

/-- Whatever branch createProject takes, the projects table is either
unchanged or extended by exactly the one new row, whose status is the
schema default "pending". -/
theorem createProject_db_projects (db : DB) (req : CreateReq) :
    (createProject db req).db.projects = db.projects ∨
    (createProject db req).db.projects = db.projects ++
      [⟨uuid db.nextId, req.project_name.getD "", req.description,
        req.filename.map (fun f => "/uploads/project_media/" ++ f), "pending",
        req.userId.getD ""⟩] := by
  unfold createProject
  dsimp only
  split
  · exact Or.inl rfl
  · split
    · exact Or.inl rfl
    · split
      · exact Or.inl rfl
      · split
        · exact Or.inl rfl
        · split
          · exact Or.inl rfl
          · split
            next dbp heq =>
              refine Or.inr ?_
              have h1 := (insertParticipants_error_fields _ _ _ _ heq).1
              simpa using h1
            next db2 heq =>
              refine Or.inr ?_
              have h1 := (insertParticipants_ok_fields _ _ _ _ heq).1
              rw [(insertMediaItems_fields _ _ _).1, (insertSkills_fields _ _ _).1]
              simpa using h1

/-- Insert-or-ignore puts the pair in the table. -/
theorem insertIgnore_self (l : List (String × String)) (pr : String × String) :
    pr ∈ insertIgnore l pr := by
  unfold insertIgnore
  split
  · assumption
  · simp

/-- Insert-or-ignore never creates a duplicate pair. -/
theorem insertIgnore_nodup (l : List (String × String)) (pr : String × String)
    (h : l.Nodup) : (insertIgnore l pr).Nodup := by
  unfold insertIgnore
  split
  · exact h
  · next hn => simp [List.nodup_append, h, hn]

/-- The participant loop preserves distinctness of the link pairs. -/
theorem insertParticipants_nodup (pid : String) :
    ∀ (l : List String) (db : DB), db.project_participants.Nodup →
      (unE (insertParticipants pid db l)).project_participants.Nodup := by
  intro l
  induction l with
  | nil => intro db h; simpa [insertParticipants, unE] using h
  | cons uid rest ih =>
    intro db h
    simp only [insertParticipants]
    split
    · exact ih _ (insertIgnore_nodup _ _ h)
    · simpa [unE] using h

/-- Distinctness preservation of the participant loop, ok outcome. -/
theorem insertParticipants_ok_nodup (pid : String) (l : List String) (db db2 : DB)
    (h : insertParticipants pid db l = .ok db2)
    (hn : db.project_participants.Nodup) : db2.project_participants.Nodup := by
  have h1 := insertParticipants_nodup pid l db hn
  rw [h] at h1
  simpa [unE] using h1

/-- Distinctness preservation of the participant loop, error outcome. -/
theorem insertParticipants_error_nodup (pid : String) (l : List String) (db dbp : DB)
    (h : insertParticipants pid db l = .error dbp)
    (hn : db.project_participants.Nodup) : dbp.project_participants.Nodup := by
  have h1 := insertParticipants_nodup pid l db hn
  rw [h] at h1
  simpa [unE] using h1

/-- A function that fixes every element of a list maps it to itself. -/
theorem map_id_of_forall {α : Type} (f : α → α) :
    ∀ (l : List α), (∀ a ∈ l, f a = a) → l.map f = l := by
  intro l
  induction l with
  | nil => intro _; rfl
  | cons a t ih =>
    intro h
    simp only [List.map_cons, h a (by simp), ih (fun x hx => h x (by simp [hx]))]

/-- When no projects row matches an id, the filter underlying the match
count is empty. -/
theorem findProject_none_filter (db : DB) (id : String)
    (h : findProject db id = none) :
    db.projects.filter (fun p => p.project_id == id) = [] := by
  unfold findProject at h
  exact List.head?_eq_none_iff.1 h

/-- A status UPDATE that matches no row leaves the store unchanged. -/
theorem setStatus_of_none (db : DB) (id st : String)
    (h : findProject db id = none) : setStatus db id st = db := by
  have h2 := findProject_none_filter db id h
  have h3 : ∀ p ∈ db.projects, (p.project_id == id) = false := by
    intro p hp
    by_contra hne
    have hmem : p ∈ db.projects.filter (fun p => p.project_id == id) :=
      List.mem_filter.2 ⟨hp, by simpa using hne⟩
    rw [h2] at hmem
    simp at hmem
  unfold setStatus
  have h4 : db.projects.map
      (fun p => if p.project_id == id then { p with status := st } else p) = db.projects :=
    map_id_of_forall _ _ (fun p hp => by simp [h3 p hp])
  rw [h4]

/-- A content type starting with video/ cannot also start with image/. -/
theorem startsWithStr_video_not_image (s : String)
    (h : startsWithStr s "video/" = true) : startsWithStr s "image/" = false := by
  simp only [startsWithStr, List.isPrefixOf_iff_prefix] at h
  simp only [startsWithStr, Bool.eq_false_iff, Ne, List.isPrefixOf_iff_prefix]
  intro h2
  have h4 : "video/".toList <+: "image/".toList :=
    List.prefix_of_prefix_length_le h h2 (by decide)
  have h5 := h4.eq_of_length (by decide)
  simp at h5

/-
  Claim theorems.
-/

/-- C1: the claim reads the creation writes (project row, participant
links, skills, media) as one atomic transaction, so that a failing
statement leaves nothing behind.  The code issues the statements
independently with no transaction: in dbC1 the creation request reqC1
lists a participant "ghost" that no users row backs, the participant
INSERT fails on the foreign key, the handler answers 500 — and the project
row written by the first statement persists, which this theorem exhibits.
The code therefore contradicts the spec's stated atomicity requirement. -/
theorem createProject_partial_write_persists :
    (createProject dbC1 reqC1).resp.code = 500
    ∧ (createProject dbC1 reqC1).db.projects =
        [⟨"uuid-0", "Alpha", none, none, "pending", "u1"⟩]
    ∧ dbC1.projects = [] := by decide

/-- C2: the claim says a notification-dispatch failure neither rolls back
an approve/reject status change nor makes the operation report failure.
In the code the persisted-status half holds, but `sendEmail` rethrows and
`approveProject` awaits it inside its try block, so the handler answers
500: approving project p1 of dbC2 with the mail system down (emailOk =
false) yields response 500 "Error approving project" even though the
status is already persisted as approved and no email was sent.  The code
therefore contradicts the spec's "must not fail the transition". -/
theorem approve_email_failure_reports_500 :
    (approveProject dbC2 "p1" false).resp = ⟨500, "Error approving project"⟩
    ∧ (findProject (approveProject dbC2 "p1" false).db "p1").map (fun p => p.status) =
        some "approved"
    ∧ (approveProject dbC2 "p1" false).sent = [] := by decide

/-- C3: every project row that creation adds to the store has status
"pending", for every request — in particular regardless of any status
value carried in the request body, which the handler never reads. -/
theorem createProject_status_pending (db : DB) (req : CreateReq) (p : ProjectRow)
    (hmem : p ∈ (createProject db req).db.projects) (hnew : p ∉ db.projects) :
    p.status = "pending" := by
  rcases createProject_db_projects db req with h | h
  · rw [h] at hmem
    exact absurd hmem hnew
  · rw [h] at hmem
    rcases List.mem_append.1 hmem with h1 | h1
    · exact absurd h1 hnew
    · simp at h1
      rw [h1]

/-- Witness for C3: a concrete valid creation request that tries to inject
status "approved" still produces a pending project. -/
theorem createProject_status_pending_witness :
    (rowC3 ∈ (createProject dbC3 reqC3).db.projects ∧ rowC3 ∉ dbC3.projects)
    ∧ rowC3.status = "pending" :=
  ⟨⟨by decide, by decide⟩,
   createProject_status_pending dbC3 reqC3 rowC3 (by decide) (by decide)⟩

/-- C4: every project the portfolio listing returns has status approved;
the skill filter is a case-insensitive substring match, so "react" matches
"React Native"; and the public detail endpoint answers 404 for any id
whose project is absent or not approved. -/
theorem portfolio_and_detail_only_approved :
    (∀ (db : DB) (q : PortfolioQuery) (p : ProjectRow),
        p ∈ getPortfolioProjects db q → p.status = "approved")
    ∧ ilikeMatch "React Native" "react" = true
    ∧ (∀ (db : DB) (id : String),
        (∀ p ∈ db.projects, p.project_id = id → p.status ≠ "approved") →
        (getPublicProjectDetailsResp db id).code = 404) := by
  refine ⟨?_, by decide, ?_⟩
  · intro db q p hp
    have h1 := (List.mem_filter.1 hp).2
    unfold portfolioMatch at h1
    simp only [Bool.and_eq_true, beq_iff_eq] at h1
    exact h1.1.1
  · intro db id h
    have h2 : db.projects.filter (fun p => p.project_id == id && p.status == "approved") = [] := by
      rw [List.filter_eq_nil_iff]
      intro p hp
      simp only [Bool.and_eq_true, beq_iff_eq, not_and]
      exact h p hp
    unfold getPublicProjectDetailsResp getPublicProjectDetails
    simp [h2]

/-- Witness for C4: in dbC4 the approved "React Native" project is listed
under the filter "react", and the pending project's detail read is 404. -/
theorem portfolio_and_detail_only_approved_witness :
    (rowC4 ∈ getPortfolioProjects dbC4 ⟨none, some "react"⟩ ∧ rowC4.status = "approved")
    ∧ (getPublicProjectDetailsResp dbC4 "p2").code = 404 :=
  ⟨⟨by decide,
    portfolio_and_detail_only_approved.1 dbC4 ⟨none, some "react"⟩ rowC4 (by decide)⟩,
   portfolio_and_detail_only_approved.2.2 dbC4 "p2" (by decide)⟩

/-- C5: approving or rejecting an id that matches no project answers 404,
leaves the store exactly as it was, and sends no notification. -/
theorem moderation_not_found (db : DB) (id : String) (reason : Option String) (emailOk : Bool)
    (h : findProject db id = none) :
    approveProject db id emailOk = ⟨db, ⟨404, "Project not found"⟩, []⟩
    ∧ rejectProject db id reason emailOk = ⟨db, ⟨404, "Project not found"⟩, []⟩ := by
  unfold approveProject rejectProject
  rw [setStatus_of_none db id "approved" h, setStatus_of_none db id "rejected" h, h]
  exact ⟨rfl, rfl⟩

/-- Witness for C5: moderating the nonexistent id "nope" in dbC5. -/
theorem moderation_not_found_witness :
    findProject dbC5 "nope" = none
    ∧ approveProject dbC5 "nope" true = ⟨dbC5, ⟨404, "Project not found"⟩, []⟩
    ∧ rejectProject dbC5 "nope" (some "bad") true = ⟨dbC5, ⟨404, "Project not found"⟩, []⟩ :=
  ⟨by decide,
   (moderation_not_found dbC5 "nope" (some "bad") true (by decide)).1,
   (moderation_not_found dbC5 "nope" (some "bad") true (by decide)).2⟩

/-- C6: a successful approval of an existing project whose creator has a
registered email sends exactly one notification, to that address, whose
body contains the project's name; a successful rejection with a nonempty
reason sends exactly one notification containing that reason verbatim. -/
theorem moderation_notification (db : DB) (id : String) (row : ProjectRow) (u : UserRow)
    (reason : String)
    (hrow : findProject db id = some row)
    (hu : findUser db row.created_by_user_id = some u) :
    (∃ e, (approveProject db id true).sent = [e] ∧ e.toAddr = u.email ∧
      ∃ a b, e.text = a ++ row.project_name ++ b)
    ∧ (reason ≠ "" → ∃ e, (rejectProject db id (some reason) true).sent = [e] ∧
      e.toAddr = u.email ∧ ∃ a b, e.text = a ++ reason ++ b) := by
  constructor
  · unfold approveProject
    rw [hrow]
    dsimp only
    rw [hu]
    exact ⟨_, rfl, rfl, "Your project \"", "\" has been approved by a Team Leader.", rfl⟩
  · intro hr
    unfold rejectProject
    rw [hrow]
    dsimp only
    rw [hu]
    have ht : truthy (some reason) = true := by simpa [truthy] using hr
    rw [ht]
    refine ⟨_, rfl, rfl,
      "Your project \"" ++ row.project_name ++ "\" has been rejected by a Team Leader." ++
        "\nReason: ", "", ?_⟩
    simp

/-- Witness for C6: approving and rejecting project p1 of dbC6 with reason
"because". -/
theorem moderation_notification_witness :
    (findProject dbC6 "p1" = some rowC6
      ∧ findUser dbC6 rowC6.created_by_user_id = some userC6
      ∧ ("because" : String) ≠ "")
    ∧ (∃ e, (approveProject dbC6 "p1" true).sent = [e] ∧ e.toAddr = userC6.email ∧
        ∃ a b, e.text = a ++ rowC6.project_name ++ b)
    ∧ (∃ e, (rejectProject dbC6 "p1" (some "because") true).sent = [e] ∧
        e.toAddr = userC6.email ∧ ∃ a b, e.text = a ++ "because" ++ b) :=
  ⟨⟨by decide, by decide, by decide⟩,
   (moderation_notification dbC6 "p1" rowC6 userC6 "because" (by decide) (by decide)).1,
   (moderation_notification dbC6 "p1" rowC6 userC6 "because" (by decide) (by decide)).2
     (by decide)⟩

/-- C7: deletion answers 404 and changes nothing when no row matches,
rolls back and answers 500 on a store failure, and on success removes the
project row together with all of its participant links, skill links and
media rows via the schema's cascading deletes. -/
theorem deleteProject_spec (db : DB) (id : String) :
    (findProject db id = none → deleteProject db id true = (db, ⟨404, "Project not found"⟩))
    ∧ deleteProject db id false = (db, ⟨500, "Error deleting project"⟩)
    ∧ ((findProject db id).isSome →
        (∀ p ∈ (deleteProject db id true).1.projects, p.project_id ≠ id)
        ∧ (∀ pr ∈ (deleteProject db id true).1.project_participants, pr.1 ≠ id)
        ∧ (∀ pr ∈ (deleteProject db id true).1.project_skills, pr.1 ≠ id)
        ∧ (∀ m ∈ (deleteProject db id true).1.project_media, m.project_id ≠ id)) := by
  refine ⟨?_, by unfold deleteProject; simp, ?_⟩
  · intro h
    have h2 := findProject_none_filter db id h
    unfold deleteProject
    simp [h2]
  · intro h
    have h2 : (db.projects.filter (fun p => p.project_id == id)).length ≠ 0 := by
      unfold findProject at h
      intro hlen
      rw [List.length_eq_zero] at hlen
      rw [hlen] at h
      simp at h
    have h3 : ((db.projects.filter (fun p => p.project_id == id)).length == 0) = false := by
      simpa using h2
    unfold deleteProject
    simp only [Bool.not_true, Bool.false_eq_true, if_false, h3, if_true]
    refine ⟨?_, ?_, ?_, ?_⟩ <;>
      { intro x hx
        have h4 := (List.mem_filter.1 hx).2
        simpa using h4 }

/-- Witness for C7: dbC7 has one project p1 with a participant link, a
skill link and a media row; deleting the unknown id "nope" is a 404 no-op
and deleting p1 leaves no participant link behind. -/
theorem deleteProject_spec_witness :
    (findProject dbC7 "nope" = none ∧ (findProject dbC7 "p1").isSome)
    ∧ deleteProject dbC7 "nope" true = (dbC7, ⟨404, "Project not found"⟩)
    ∧ (∀ pr ∈ (deleteProject dbC7 "p1" true).1.project_participants, pr.1 ≠ "p1") :=
  ⟨⟨by decide, by decide⟩,
   (deleteProject_spec dbC7 "nope").1 (by decide),
   ((deleteProject_spec dbC7 "p1").2.2 (by decide)).2.1⟩

/-- C8: a successful creation always leaves a participant link for the
creator — even when the creator is redundantly listed in the participants
array — and participant-link insertion is idempotent on the (project,
user) pair: the table never acquires duplicate rows, on any branch of the
handler. -/
theorem createProject_creator_link (db : DB) (req : CreateReq) :
    ((createProject db req).resp.code = 201 →
      (uuid db.nextId, req.userId.getD "") ∈ (createProject db req).db.project_participants)
    ∧ (db.project_participants.Nodup →
      (createProject db req).db.project_participants.Nodup) := by
  unfold createProject
  dsimp only
  split
  · exact ⟨fun hc => by simp at hc, fun h => h⟩
  · split
    · exact ⟨fun hc => by simp at hc, fun h => h⟩
    · split
      · exact ⟨fun hc => by simp at hc, fun h => h⟩
      · split
        · exact ⟨fun hc => by simp at hc, fun h => h⟩
        · split
          · exact ⟨fun hc => by simp at hc, fun h => h⟩
          · split
            next dbp heq =>
              refine ⟨fun hc => by simp at hc, fun h => ?_⟩
              exact insertParticipants_error_nodup _ _ _ _ heq (by simpa using h)
            next db2 heq =>
              constructor
              · intro _
                rw [(insertMediaItems_fields _ _ _).2, (insertSkills_fields _ _ _).2.1]
                exact insertIgnore_self _ _
              · intro h
                rw [(insertMediaItems_fields _ _ _).2, (insertSkills_fields _ _ _).2.1]
                exact insertIgnore_nodup _ _
                  (insertParticipants_ok_nodup _ _ _ _ heq (by simpa using h))

/-- Witness for C8: reqC8 lists the creator u1 redundantly among the
participants; creation succeeds, the creator's link exists, and the link
table has no duplicates. -/
theorem createProject_creator_link_witness :
    ((createProject dbC8 reqC8).resp.code = 201 ∧ dbC8.project_participants.Nodup)
    ∧ (uuid dbC8.nextId, reqC8.userId.getD "") ∈
        (createProject dbC8 reqC8).db.project_participants
    ∧ (createProject dbC8 reqC8).db.project_participants.Nodup :=
  ⟨⟨by decide, by decide⟩,
   (createProject_creator_link dbC8 reqC8).1 (by decide),
   (createProject_creator_link dbC8 reqC8).2 (by decide)⟩

/-- C9: for every uploaded file accepted by the media middleware, the
stored media row's type is derived from the declared content type —
image/* yields "image", video/* yields "video" — and no value other than
these two is ever assigned. -/
theorem uploadProjectMedia_type (db : DB) (id : String) (f : UploadedFile) (d : Option String)
    (hf : projectMediaFileFilter f = true) :
    ∃ r, (uploadProjectMedia db id (some f) d).1.project_media = db.project_media ++ [r]
    ∧ (startsWithStr f.mimetype "image/" = true → r.media_type = "image")
    ∧ (startsWithStr f.mimetype "video/" = true → r.media_type = "video")
    ∧ (r.media_type = "image" ∨ r.media_type = "video") := by
  refine ⟨⟨id, uploadMediaType f, "/uploads/project_media/" ++ f.filename, d⟩, rfl, ?_, ?_, ?_⟩
  · intro h
    simp [uploadMediaType, h]
  · intro h
    have h2 := startsWithStr_video_not_image _ h
    simp [uploadMediaType, h2]
  · unfold uploadMediaType
    split
    · exact Or.inl rfl
    · exact Or.inr rfl

/-- Witness for C9: uploading the video file fC9 to project p1 of dbC9. -/
theorem uploadProjectMedia_type_witness :
    projectMediaFileFilter fC9 = true
    ∧ ∃ r, (uploadProjectMedia dbC9 "p1" (some fC9) none).1.project_media =
        dbC9.project_media ++ [r]
      ∧ (startsWithStr fC9.mimetype "image/" = true → r.media_type = "image")
      ∧ (startsWithStr fC9.mimetype "video/" = true → r.media_type = "video")
      ∧ (r.media_type = "image" ∨ r.media_type = "video") :=
  ⟨by decide, uploadProjectMedia_type dbC9 "p1" fC9 none (by decide)⟩

/-- C10: for a creation request that passes the name/creator validation, a
participants, skills or media field holding an unparsable string makes the
handler answer 400 "Invalid <field> data" with the store untouched (fields
are parsed in that order, before any database statement); an absent field
parses to the empty-list default, and with all three fields absent and an
existing creator the creation proceeds to a 201. -/
theorem createProject_json_validation (db : DB) (req : CreateReq)
    (hname : truthy req.project_name = true) (huser : truthy req.userId = true) :
    (req.participants = .invalidStr →
      createProject db req = ⟨db, ⟨400, "Invalid participants data"⟩⟩)
    ∧ (req.participants ≠ RawField.invalidStr → req.skills = .invalidStr →
      createProject db req = ⟨db, ⟨400, "Invalid skills data"⟩⟩)
    ∧ (req.participants ≠ RawField.invalidStr → req.skills ≠ RawField.invalidStr →
      req.media = .invalidStr →
      createProject db req = ⟨db, ⟨400, "Invalid media data"⟩⟩)
    ∧ (∀ (T : Type) (d : T) (nm : String),
        parseJsonField (RawField.absent : RawField T) nm d = .ok d)
    ∧ (req.participants = .absent → req.skills = .absent → req.media = .absent →
      userExists db (req.userId.getD "") = true →
      (createProject db req).resp.code = 201) := by
  refine ⟨?_, ?_, ?_, fun T d nm => rfl, ?_⟩
  · intro hp
    unfold createProject
    simp [hname, huser, hp, parseJsonField]
  · intro hp hs
    unfold createProject
    cases hp2 : req.participants with
    | invalidStr => exact absurd hp2 hp
    | absent => simp [hname, huser, hs, parseJsonField]
    | parsed v => simp [hname, huser, hs, parseJsonField]
  · intro hp hs hm
    unfold createProject
    cases hp2 : req.participants with
    | invalidStr => exact absurd hp2 hp
    | absent =>
      cases hs2 : req.skills with
      | invalidStr => exact absurd hs2 hs
      | absent => simp [hname, huser, hm, parseJsonField]
      | parsed v => simp [hname, huser, hm, parseJsonField]
    | parsed v =>
      cases hs2 : req.skills with
      | invalidStr => exact absurd hs2 hs
      | absent => simp [hname, huser, hm, parseJsonField]
      | parsed v2 => simp [hname, huser, hm, parseJsonField]
  · intro hp hs hm hu
    unfold createProject
    simp [hname, huser, hp, hs, hm, hu, parseJsonField, insertParticipants]

/-- Witness for C10: the unparsable-participants request reqC10 is a 400
no-op in dbC10, while the same request with the field absent succeeds. -/
theorem createProject_json_validation_witness :
    (truthy reqC10.project_name = true ∧ truthy reqC10.userId = true
      ∧ reqC10.participants = RawField.invalidStr
      ∧ userExists dbC10 (reqC10b.userId.getD "") = true)
    ∧ createProject dbC10 reqC10 = ⟨dbC10, ⟨400, "Invalid participants data"⟩⟩
    ∧ (createProject dbC10 reqC10b).resp.code = 201 :=
  ⟨⟨by decide, by decide, by decide, by decide⟩,
   (createProject_json_validation dbC10 reqC10 (by decide) (by decide)).1 (by decide),
   (createProject_json_validation dbC10 reqC10b (by decide) (by decide)).2.2.2.2
     (by decide) (by decide) (by decide) (by decide)⟩

end MillerBit
